import Mathlib

/-!
Verification of the MediConnect backend (`server.js`).

The file shallowly embeds the backend's handlers in Lean:

* the Access Guard middleware (`middleware/auth.js`, `authMiddleware`),
* the credential flows (`registerUser`, `loginUser`, `hospitalRegister`,
  `hospitalLogin`, `pharmacyRegister`, `pharmacyLogin`),
* the public searches (`searchDoctors`, `searchMedicines`),
* the owner-scoped CRUD on doctors and medicines, including the dynamic
  update-statement builder used by `updateDoctor` / `updateMedicine`.

The relational store is modelled as Lean lists of rows; each handler becomes a
pure function from the request data (and the relevant table) to a response,
and — for mutations — the resulting table.  SQL `ILIKE '%v%'` becomes a
case-insensitive substring test on the character data, `ORDER BY name`
becomes sorting by the lexicographic order on character data, and the
external `jsonwebtoken` / `bcrypt` libraries are modelled respectively by an
explicit token codec with an abstract signature function and by an abstract
hash-comparison parameter.

String operations are deliberately phrased on `String.data` (lists of
characters) so that every definition evaluates inside the kernel; the
JavaScript `header.split(' ')` is the char-level `List.splitOnP (· == ' ')`,
which agrees with Lean's `String.split` by `String.split_of_valid`.
-/

/-! ## Generic response envelope -/

/-- JSON response envelope `{status, success, message}` used by the handlers
(`res.status(s).json({success, message})`). -/
structure Resp where
  status : Nat
  success : Bool
  message : String
deriving DecidableEq, Repr

/-! ## String helpers (char-data level) -/

/-- Lexicographic comparison of strings via their character data; this is the
order used to model SQL `ORDER BY <name column>`. -/
def nameLe (a b : String) : Prop :=
  a.data ≤ b.data

instance : DecidableRel nameLe := fun a b => inferInstanceAs (Decidable (a.data ≤ b.data))

/-- Case-insensitive substring containment: the meaning of the SQL filter
`col ILIKE '%pat%'` for a pattern with no wildcard metacharacters, as both
`searchDoctors` and `searchMedicines` build their filters. -/
def CiSubstr (pat col : String) : Prop :=
  pat.data.map Char.toLower <:+: col.data.map Char.toLower

instance (pat col : String) : Decidable (CiSubstr pat col) :=
  inferInstanceAs (Decidable (_ <:+: _))

/-- Boolean form of `CiSubstr`, used inside the executable search filters. -/
def ilike (pat col : String) : Bool :=
  decide (CiSubstr pat col)

/-- JavaScript `s.split(' ')`: split at every space character.  Phrased on the
character data (`List.splitOnP`) so it evaluates in the kernel; it agrees
with `String.split (· == ' ')` by `String.split_of_valid`. -/
def jsSplitSpaces (s : String) : List String :=
  (List.splitOnP (fun c => c == ' ') s.data).map String.mk

theorem jsSplitSpaces_eq_split (s : String) :
    jsSplitSpaces s = s.split (fun c => c == ' ') :=
  (String.split_of_valid s _).symm

/-- Parse a nonempty all-digit character list as a natural number (used by the
modelled token codec). -/
def charsToNat? (cs : List Char) : Option Nat :=
  if cs = [] then none
  else if cs.all Char.isDigit then
    some (cs.foldl (fun n c => 10 * n + (c.toNat - 48)) 0)
  else none

/-! ## Token Service (modelled) and Access Guard (`middleware/auth.js`) -/

/-- Decoded token payload `{id, userType, exp}` as produced by
`jwt.sign({id, userType}, secret, {expiresIn})` and consumed by the
middleware (`decoded.userType`, `req.user.id`). -/
structure JwtPayload where
  id : Nat
  userType : String
  exp : Nat
deriving DecidableEq, Repr

/-- Auxiliary hash mixing a string into a number, used by the modelled
signature function. -/
def strHash (s : String) : Nat :=
  s.data.foldl (fun h c => h * 31 + c.toNat) 7

/-- Modelled from the spec: the signature that the external `jsonwebtoken`
library (the Token Service of §4.1, not part of this repository) computes
from the signing secret and the payload.  Any concrete function of
`(secret, payload)` serves the model; verification only compares against it. -/
def mkSig (secret : String) (p : JwtPayload) : Nat :=
  strHash secret * 1000003 + p.id * 131 + p.exp * 257 + strHash p.userType

/-- Modelled from the spec: the wire decoding done by the external
`jsonwebtoken` library.  A well-formed token carries `id.userType.exp.sig`;
anything else is malformed. -/
def decodeJwt (tok : String) : Option (JwtPayload × Nat) :=
  match (List.splitOnP (fun c => c == '.') tok.data).map String.mk with
  | [a, u, e, g] =>
    match charsToNat? a.data, charsToNat? e.data, charsToNat? g.data with
    | some i, some ex, some sg => some ({ id := i, userType := u, exp := ex }, sg)
    | _, _, _ => none
  | _ => none

/-- Modelled from the spec: `jwt.verify(token, secret)` (§4.1): fails when the
payload is malformed, the signature does not match, or the current time has
reached the expiry; otherwise returns the decoded payload. -/
def jwtVerify (secret : String) (now : Nat) (tok : String) : Option JwtPayload :=
  match decodeJwt tok with
  | none => none
  | some (p, sig) =>
    if sig ≠ mkSig secret p then none
    else if p.exp ≤ now then none
    else some p

/-- Outcome of the middleware: either an early JSON rejection or the request
proceeds to the handler with `req.user` set to the decoded payload. -/
inductive AuthOutcome where
  | reject (status : Nat) (message : String)
  | proceed (user : JwtPayload)
deriving DecidableEq, Repr

/-- Token extraction of `authMiddleware`:
`const token = req.headers.authorization?.split(' ')[1]` followed by the
falsiness test `if (!token)`.  `none` is returned exactly when the header is
absent, has no second space-separated chunk, or that chunk is empty. -/
def extractToken (authHeader : Option String) : Option String :=
  match authHeader with
  | none => none
  | some h =>
    match (jsSplitSpaces h)[1]? with
    | none => none
    | some t => if t = "" then none else some t

/-- The Access Guard `authMiddleware(userType)` of `middleware/auth.js`,
parameterized (as the code is) over the verification function of the token
library: missing token → 401, failed verification (the `catch`) → 401,
role mismatch → 403, otherwise proceed with the decoded payload. -/
def authMiddleware (verify : String → Option JwtPayload) (userType : Option String)
    (authHeader : Option String) : AuthOutcome :=
  match extractToken authHeader with
  | none => .reject 401 "Access denied. No token provided."
  | some token =>
    match verify token with
    | none => .reject 401 "Invalid token."
    | some decoded =>
      match userType with
      | some ut => if decoded.userType ≠ ut then
          .reject 403 "Access denied. Insufficient permissions."
        else .proceed decoded
      | none => .proceed decoded

/-! ## Relational rows (the columns the handlers read) -/

/-- Row of the `users` table (columns used by the handlers; the remaining
profile columns are carried by no claim and are omitted). -/
structure User where
  user_id : Nat
  full_name : String
  email : String
  password_hash : String
deriving DecidableEq, Repr

/-- Row of the `hospitals` table (columns used by login, register and the
doctor search join). -/
structure Hospital where
  hospital_id : Nat
  hospital_name : String
  email : String
  password_hash : String
  address : String
  city : String
  phone : String
  is_active : Bool
deriving DecidableEq, Repr

/-- Row of the `pharmacies` table (columns used by login, register and the
medicine search join). -/
structure Pharmacy where
  pharmacy_id : Nat
  pharmacy_name : String
  email : String
  password_hash : String
  address : String
  city : String
  phone : String
  is_active : Bool
deriving DecidableEq, Repr

/-- Row of the `doctors` table (columns used by `searchDoctors`). -/
structure Doctor where
  doctor_id : Nat
  hospital_id : Nat
  full_name : String
  specialization : String
  is_available : Bool
deriving DecidableEq, Repr

/-- Row of the `medicines` table (columns used by `searchMedicines`). -/
structure Medicine where
  medicine_id : Nat
  pharmacy_id : Nat
  medicine_name : String
  generic_name : String
  category : String
  stock_quantity : Nat
  is_available : Bool
deriving DecidableEq, Repr

/-! ## Credential flows (`userController`, `hospitalController`, `pharmacyController`)

`bcrypt` is external: the register handlers take the salted-hash function as
a parameter `hashFn` (the result of `bcrypt.hash(password, salt)`), and the
login handlers take the comparison `compare password hash` (the result of
`bcrypt.compare(password, hash)`).  The issued JWT string is not modelled in
the returned data: no claim refers to it. -/

/-- Result of a login handler: either a `res.status(401)`-style failure or the
safe field subset `{id, name, email}` of the matched row. -/
inductive LoginOutcome where
  | fail (status : Nat) (message : String)
  | ok (id : Nat) (name : String) (email : String)
deriving DecidableEq, Repr

/-- `registerUser`: duplicate-email check against the `users` table only, then
insert with the bcrypt hash.  `newId` models the serial `user_id` the
database assigns to the inserted row. -/
def registerUser (hashFn : String → String) (db : List User) (newId : Nat)
    (full_name email password : String) : Resp × List User :=
  let userExists := db.filter (fun u => u.email == email)
  if userExists.length > 0 then
    ({ status := 400, success := false, message := "User already exists" }, db)
  else
    ({ status := 201, success := true, message := "User registered successfully" },
     db ++ [{ user_id := newId, full_name := full_name, email := email,
              password_hash := hashFn password }])

/-- `loginUser`: select by email from `users`; unknown email and failed hash
comparison take the two distinct 401 branches of the handler. -/
def loginUser (compare : String → String → Bool) (db : List User)
    (email password : String) : LoginOutcome :=
  let rows := db.filter (fun u => u.email == email)
  match rows.head? with
  | none => .fail 401 "Invalid credentials"
  | some user =>
    if compare password user.password_hash then
      .ok user.user_id user.full_name user.email
    else
      .fail 401 "Invalid credentials"

/-- `hospitalRegister`: duplicate-email check against the `hospitals` table
only, then insert.  The schema default for `is_active` (not set by the
`INSERT`) is modelled as `true`. -/
def hospitalRegister (hashFn : String → String) (db : List Hospital) (newId : Nat)
    (hospital_name email password address city phone : String) : Resp × List Hospital :=
  let hospitalExists := db.filter (fun h => h.email == email)
  if hospitalExists.length > 0 then
    ({ status := 400, success := false, message := "Hospital already exists" }, db)
  else
    ({ status := 201, success := true, message := "Hospital registered successfully" },
     db ++ [{ hospital_id := newId, hospital_name := hospital_name, email := email,
              password_hash := hashFn password, address := address, city := city,
              phone := phone, is_active := true }])

/-- `hospitalLogin`: select by email from `hospitals`; both failure branches
return the handler's identical 401 response. -/
def hospitalLogin (compare : String → String → Bool) (db : List Hospital)
    (email password : String) : LoginOutcome :=
  let rows := db.filter (fun h => h.email == email)
  match rows.head? with
  | none => .fail 401 "Invalid credentials"
  | some hospital =>
    if compare password hospital.password_hash then
      .ok hospital.hospital_id hospital.hospital_name hospital.email
    else
      .fail 401 "Invalid credentials"

/-- `pharmacyRegister`: duplicate-email check against the `pharmacies` table
only, then insert (schema default `is_active = true`). -/
def pharmacyRegister (hashFn : String → String) (db : List Pharmacy) (newId : Nat)
    (pharmacy_name email password address city phone : String) : Resp × List Pharmacy :=
  let pharmacyExists := db.filter (fun p => p.email == email)
  if pharmacyExists.length > 0 then
    ({ status := 400, success := false, message := "Pharmacy already exists" }, db)
  else
    ({ status := 201, success := true, message := "Pharmacy registered successfully" },
     db ++ [{ pharmacy_id := newId, pharmacy_name := pharmacy_name, email := email,
              password_hash := hashFn password, address := address, city := city,
              phone := phone, is_active := true }])

/-- `pharmacyLogin`: select by email from `pharmacies`; both failure branches
return the handler's identical 401 response. -/
def pharmacyLogin (compare : String → String → Bool) (db : List Pharmacy)
    (email password : String) : LoginOutcome :=
  let rows := db.filter (fun p => p.email == email)
  match rows.head? with
  | none => .fail 401 "Invalid credentials"
  | some pharmacy =>
    if compare password pharmacy.password_hash then
      .ok pharmacy.pharmacy_id pharmacy.pharmacy_name pharmacy.email
    else
      .fail 401 "Invalid credentials"

/-! ## Public searches (`searchDoctors`, `searchMedicines`)

Absent query parameters are modelled as `""`: in the handler, both an absent
parameter (`undefined`) and an empty string are falsy, so the corresponding
`ILIKE` clause is only appended for a nonempty value. -/

/-- The `JOIN hospitals h ON d.hospital_id = h.hospital_id` of
`searchDoctors`, as the list of joined row pairs. -/
def joinDoctors (ds : List Doctor) (hs : List Hospital) : List (Doctor × Hospital) :=
  ds.flatMap (fun d => (hs.filter (fun h => h.hospital_id == d.hospital_id)).map (fun h => (d, h)))

/-- `searchDoctors`: the joined rows restricted by the fixed
`d.is_available = true AND h.is_active = true` clause and by one `ILIKE`
clause per truthy filter, then `ORDER BY d.full_name`. -/
def searchDoctors (ds : List Doctor) (hs : List Hospital)
    (specialization city hospital_name : String) : List (Doctor × Hospital) :=
  let rows := (joinDoctors ds hs).filter (fun x =>
    x.1.is_available && x.2.is_active
    && (specialization == "" || ilike specialization x.1.specialization)
    && (city == "" || ilike city x.2.city)
    && (hospital_name == "" || ilike hospital_name x.2.hospital_name))
  List.insertionSort (fun a b => nameLe a.1.full_name b.1.full_name) rows

/-- The `JOIN pharmacies p ON m.pharmacy_id = p.pharmacy_id` of
`searchMedicines`. -/
def joinMedicines (ms : List Medicine) (ps : List Pharmacy) : List (Medicine × Pharmacy) :=
  ms.flatMap (fun m => (ps.filter (fun p => p.pharmacy_id == m.pharmacy_id)).map (fun p => (m, p)))

/-- `searchMedicines`: fixed clause
`m.is_available = true AND m.stock_quantity > 0 AND p.is_active = true`, a
`medicine_name` filter matching display name OR generic name, city and
category filters, then `ORDER BY m.medicine_name`. -/
def searchMedicines (ms : List Medicine) (ps : List Pharmacy)
    (medicine_name city category : String) : List (Medicine × Pharmacy) :=
  let rows := (joinMedicines ms ps).filter (fun x =>
    x.1.is_available && decide (0 < x.1.stock_quantity) && x.2.is_active
    && (medicine_name == "" || (ilike medicine_name x.1.medicine_name
                                || ilike medicine_name x.1.generic_name))
    && (city == "" || ilike city x.2.city)
    && (category == "" || ilike category x.1.category))
  List.insertionSort (fun a b => nameLe a.1.medicine_name b.1.medicine_name) rows

/-- Search response envelope `res.json({success: true, count, data})`. -/
structure SearchResponse (α : Type) where
  status : Nat
  success : Bool
  count : Nat
  data : List α
deriving DecidableEq, Repr

/-- The full `searchDoctors` handler response: always a 200 success envelope
around the result rows (the only other branch of the handler is the `catch`
for database failures, which the model does not reach). -/
def searchDoctorsResponse (ds : List Doctor) (hs : List Hospital)
    (specialization city hospital_name : String) : SearchResponse (Doctor × Hospital) :=
  let rows := searchDoctors ds hs specialization city hospital_name
  { status := 200, success := true, count := rows.length, data := rows }

/-- The full `searchMedicines` handler response. -/
def searchMedicinesResponse (ms : List Medicine) (ps : List Pharmacy)
    (medicine_name city category : String) : SearchResponse (Medicine × Pharmacy) :=
  let rows := searchMedicines ms ps medicine_name city category
  { status := 200, success := true, count := rows.length, data := rows }

/-! ## Owner-scoped CRUD (`doctorController`, `medicineController`)

The dynamic `UPDATE ... SET` may touch arbitrary caller-chosen columns, so
for these handlers a row is its key pair plus an association list of the
remaining columns. -/

/-- Row of `doctors` as seen by the owner-scoped CRUD: key pair
`(doctor_id, hospital_id)` plus the remaining columns as `name ↦ value`. -/
structure DoctorRow where
  doctor_id : Nat
  hospital_id : Nat
  cols : List (String × String)
deriving DecidableEq, Repr

/-- Row of `medicines` as seen by the owner-scoped CRUD. -/
structure MedicineRow where
  medicine_id : Nat
  pharmacy_id : Nat
  cols : List (String × String)
deriving DecidableEq, Repr

/-- One `SET field = value` assignment on an association-list row: overwrite
the named column where it exists. -/
def setCol (cs : List (String × String)) (f v : String) : List (String × String) :=
  cs.map (fun c => if c.1 == f then (c.1, v) else c)

/-- Apply the assignments of a dynamic `SET` clause in order. -/
def applyPatch (cs : List (String × String)) (updates : List (String × String)) :
    List (String × String) :=
  updates.foldl (fun acc fv => setCol acc fv.1 fv.2) cs

/-- The `SET` clause text built by `updateDoctor` / `updateMedicine`:
`fields.map((field, index) => `field = $(index+1)`).join(', ')`.  The field
names are interpolated into the text; the values are not. -/
def setClauseOf (fields : List String) : String :=
  String.intercalate ", " (fields.enum.map (fun p => p.2 ++ " = $" ++ toString (p.1 + 1)))

/-- The parameter array `[...values, doctor_id, hospital_id]` passed to
`pool.query` alongside the dynamic statement. -/
def updateParams (updates : List (String × String)) (entityId ownerId : String) :
    List String :=
  updates.map Prod.snd ++ [entityId, ownerId]

/-- The full dynamic statement of `updateDoctor` (text, parameters). -/
def buildDoctorUpdateQuery (updates : List (String × String)) (entityId ownerId : String) :
    String × List String :=
  ("UPDATE doctors SET " ++ setClauseOf (updates.map Prod.fst)
     ++ " WHERE doctor_id = $" ++ toString (updates.length + 1)
     ++ " AND hospital_id = $" ++ toString (updates.length + 2) ++ " RETURNING *",
   updateParams updates entityId ownerId)

/-- The full dynamic statement of `updateMedicine` (text, parameters). -/
def buildMedicineUpdateQuery (updates : List (String × String)) (entityId ownerId : String) :
    String × List String :=
  ("UPDATE medicines SET " ++ setClauseOf (updates.map Prod.fst)
     ++ " WHERE medicine_id = $" ++ toString (updates.length + 1)
     ++ " AND pharmacy_id = $" ++ toString (updates.length + 2) ++ " RETURNING *",
   updateParams updates entityId ownerId)

/-- `updateDoctor`: existence check on the combined key `(doctor_id,
hospital_id)` (404 on miss), then the dynamic update.  With an empty patch
the built statement has an empty `SET` clause (`UPDATE doctors SET  WHERE
...`), which the database rejects as a syntax error; the thrown error lands
in the handler's `catch`, hence 500 and an unchanged table. -/
def updateDoctor (db : List DoctorRow) (doctor_id hospital_id : Nat)
    (updates : List (String × String)) : Resp × List DoctorRow :=
  let checkDoctor := db.filter (fun r => r.doctor_id == doctor_id && r.hospital_id == hospital_id)
  if checkDoctor.length = 0 then
    ({ status := 404, success := false, message := "Doctor not found" }, db)
  else if updates.isEmpty then
    ({ status := 500, success := false, message := "Server error" }, db)
  else
    ({ status := 200, success := true, message := "Doctor updated successfully" },
     db.map (fun r => if r.doctor_id == doctor_id && r.hospital_id == hospital_id then
       { r with cols := applyPatch r.cols updates } else r))

/-- `deleteDoctor`: a single `DELETE ... WHERE doctor_id = $1 AND
hospital_id = $2 RETURNING *`; 404 exactly when no row matched. -/
def deleteDoctor (db : List DoctorRow) (doctor_id hospital_id : Nat) : Resp × List DoctorRow :=
  let deleted := db.filter (fun r => r.doctor_id == doctor_id && r.hospital_id == hospital_id)
  let db' := db.filter (fun r => !(r.doctor_id == doctor_id && r.hospital_id == hospital_id))
  if deleted.length = 0 then
    ({ status := 404, success := false, message := "Doctor not found" }, db')
  else
    ({ status := 200, success := true, message := "Doctor deleted successfully" }, db')

/-- `updateMedicine`: same shape as `updateDoctor` over `(medicine_id,
pharmacy_id)`. -/
def updateMedicine (db : List MedicineRow) (medicine_id pharmacy_id : Nat)
    (updates : List (String × String)) : Resp × List MedicineRow :=
  let checkMedicine := db.filter (fun r => r.medicine_id == medicine_id && r.pharmacy_id == pharmacy_id)
  if checkMedicine.length = 0 then
    ({ status := 404, success := false, message := "Medicine not found" }, db)
  else if updates.isEmpty then
    ({ status := 500, success := false, message := "Server error" }, db)
  else
    ({ status := 200, success := true, message := "Medicine updated successfully" },
     db.map (fun r => if r.medicine_id == medicine_id && r.pharmacy_id == pharmacy_id then
       { r with cols := applyPatch r.cols updates } else r))

/-- `deleteMedicine`: same shape as `deleteDoctor`. -/
def deleteMedicine (db : List MedicineRow) (medicine_id pharmacy_id : Nat) : Resp × List MedicineRow :=
  let deleted := db.filter (fun r => r.medicine_id == medicine_id && r.pharmacy_id == pharmacy_id)
  let db' := db.filter (fun r => !(r.medicine_id == medicine_id && r.pharmacy_id == pharmacy_id))
  if deleted.length = 0 then
    ({ status := 404, success := false, message := "Medicine not found" }, db')
  else
    ({ status := 200, success := true, message := "Medicine deleted successfully" }, db')

/-! ## Spec-side search predicates

These predicates restate, in the specification's own vocabulary, which joined
rows a search is supposed to return; the claim theorems compare the
executable searches against them. -/

/-- Spec-side membership predicate for `searchDoctors`: a doctor joined with
its owning hospital, available and active, satisfying every present filter as
a case-insensitive substring match on the corresponding column. -/
def DoctorSearchSpec (ds : List Doctor) (hs : List Hospital)
    (specialization city hospital_name : String) (x : Doctor × Hospital) : Prop :=
  x.1 ∈ ds ∧ x.2 ∈ hs ∧ x.1.hospital_id = x.2.hospital_id ∧
  x.1.is_available = true ∧ x.2.is_active = true ∧
  (specialization ≠ "" → CiSubstr specialization x.1.specialization) ∧
  (city ≠ "" → CiSubstr city x.2.city) ∧
  (hospital_name ≠ "" → CiSubstr hospital_name x.2.hospital_name)

instance (ds : List Doctor) (hs : List Hospital) (s c hn : String) (x : Doctor × Hospital) :
    Decidable (DoctorSearchSpec ds hs s c hn x) :=
  inferInstanceAs (Decidable (_ ∧ _))

/-- Spec-side membership predicate for `searchMedicines`: the `medicineName`
filter may match the display name or the generic name; the other filters are
conjoined. -/
def MedicineSearchSpec (ms : List Medicine) (ps : List Pharmacy)
    (medicine_name city category : String) (x : Medicine × Pharmacy) : Prop :=
  x.1 ∈ ms ∧ x.2 ∈ ps ∧ x.1.pharmacy_id = x.2.pharmacy_id ∧
  x.1.is_available = true ∧ 0 < x.1.stock_quantity ∧ x.2.is_active = true ∧
  (medicine_name ≠ "" → (CiSubstr medicine_name x.1.medicine_name
                         ∨ CiSubstr medicine_name x.1.generic_name)) ∧
  (city ≠ "" → CiSubstr city x.2.city) ∧
  (category ≠ "" → CiSubstr category x.1.category)

instance (ms : List Medicine) (ps : List Pharmacy) (mn c cat : String) (x : Medicine × Pharmacy) :
    Decidable (MedicineSearchSpec ms ps mn c cat x) :=
  inferInstanceAs (Decidable (_ ∧ _))

/-! ## Helper lemmas on the searches -/

theorem mem_joinDoctors {ds : List Doctor} {hs : List Hospital} {x : Doctor × Hospital} :
    x ∈ joinDoctors ds hs ↔ x.1 ∈ ds ∧ x.2 ∈ hs ∧ x.1.hospital_id = x.2.hospital_id := by
  unfold joinDoctors
  simp only [List.mem_flatMap, List.mem_map, List.mem_filter, beq_iff_eq]
  constructor
  · rintro ⟨d, hd, h, ⟨hh, hid⟩, rfl⟩
    exact ⟨hd, hh, hid.symm⟩
  · rintro ⟨h1, h2, h3⟩
    exact ⟨x.1, h1, x.2, ⟨h2, h3.symm⟩, rfl⟩

theorem mem_joinMedicines {ms : List Medicine} {ps : List Pharmacy} {x : Medicine × Pharmacy} :
    x ∈ joinMedicines ms ps ↔ x.1 ∈ ms ∧ x.2 ∈ ps ∧ x.1.pharmacy_id = x.2.pharmacy_id := by
  unfold joinMedicines
  simp only [List.mem_flatMap, List.mem_map, List.mem_filter, beq_iff_eq]
  constructor
  · rintro ⟨m, hm, p, ⟨hp, hid⟩, rfl⟩
    exact ⟨hm, hp, hid.symm⟩
  · rintro ⟨h1, h2, h3⟩
    exact ⟨x.1, h1, x.2, ⟨h2, h3.symm⟩, rfl⟩

theorem mem_searchDoctors {ds : List Doctor} {hs : List Hospital} {s c hn : String}
    {x : Doctor × Hospital} :
    x ∈ searchDoctors ds hs s c hn ↔ DoctorSearchSpec ds hs s c hn x := by
  unfold searchDoctors DoctorSearchSpec
  rw [List.mem_insertionSort, List.mem_filter, mem_joinDoctors]
  simp only [Bool.and_eq_true, Bool.or_eq_true, beq_iff_eq, ilike, decide_eq_true_eq,
    or_iff_not_imp_left, ne_eq, and_assoc]

theorem mem_searchMedicines {ms : List Medicine} {ps : List Pharmacy} {mn c cat : String}
    {x : Medicine × Pharmacy} :
    x ∈ searchMedicines ms ps mn c cat ↔ MedicineSearchSpec ms ps mn c cat x := by
  unfold searchMedicines MedicineSearchSpec
  rw [List.mem_insertionSort, List.mem_filter, mem_joinMedicines]
  simp only [Bool.and_eq_true, Bool.or_eq_true, beq_iff_eq, ilike, decide_eq_true_eq,
    or_iff_not_imp_left, ne_eq, and_assoc]

theorem sorted_searchDoctors (ds : List Doctor) (hs : List Hospital) (s c hn : String) :
    (searchDoctors ds hs s c hn).Pairwise (fun a b => nameLe a.1.full_name b.1.full_name) := by
  haveI : IsTotal (Doctor × Hospital) (fun a b => nameLe a.1.full_name b.1.full_name) :=
    ⟨fun a b => le_total _ _⟩
  haveI : IsTrans (Doctor × Hospital) (fun a b => nameLe a.1.full_name b.1.full_name) :=
    ⟨fun _ _ _ hab hbc => le_trans hab hbc⟩
  exact List.sorted_insertionSort _ _

theorem sorted_searchMedicines (ms : List Medicine) (ps : List Pharmacy) (mn c cat : String) :
    (searchMedicines ms ps mn c cat).Pairwise (fun a b => nameLe a.1.medicine_name b.1.medicine_name) := by
  haveI : IsTotal (Medicine × Pharmacy) (fun a b => nameLe a.1.medicine_name b.1.medicine_name) :=
    ⟨fun a b => le_total _ _⟩
  haveI : IsTrans (Medicine × Pharmacy) (fun a b => nameLe a.1.medicine_name b.1.medicine_name) :=
    ⟨fun _ _ _ hab hbc => le_trans hab hbc⟩
  exact List.sorted_insertionSort _ _

theorem searchDoctors_eq_nil {ds : List Doctor} {hs : List Hospital} {s c hn : String}
    (h : ∀ x ∈ joinDoctors ds hs, ¬ DoctorSearchSpec ds hs s c hn x) :
    searchDoctors ds hs s c hn = [] := by
  rw [List.eq_nil_iff_forall_not_mem]
  intro x hx
  have hspec := mem_searchDoctors.mp hx
  exact h x (mem_joinDoctors.mpr ⟨hspec.1, hspec.2.1, hspec.2.2.1⟩) hspec

theorem searchMedicines_eq_nil {ms : List Medicine} {ps : List Pharmacy} {mn c cat : String}
    (h : ∀ x ∈ joinMedicines ms ps, ¬ MedicineSearchSpec ms ps mn c cat x) :
    searchMedicines ms ps mn c cat = [] := by
  rw [List.eq_nil_iff_forall_not_mem]
  intro x hx
  have hspec := mem_searchMedicines.mp hx
  exact h x (mem_joinMedicines.mpr ⟨hspec.1, hspec.2.1, hspec.2.2.1⟩) hspec

/-! ## Helper lemmas on token extraction -/

theorem splitOnP_space_append (X t : List Char) (hX : ∀ c ∈ X, ¬(c == ' ') = true)
    (ht : ∀ c ∈ t, ¬(c == ' ') = true) :
    List.splitOnP (fun c => c == ' ') (X ++ ' ' :: t) = [X, t] := by
  rw [List.splitOnP_first _ X hX ' ' (by decide) t, List.splitOnP_eq_single _ t ht]

theorem extractToken_after_scheme (X t : String) (hX : ∀ c ∈ X.data, c ≠ ' ')
    (ht : ∀ c ∈ t.data, c ≠ ' ') (htne : t ≠ "") :
    extractToken (some (X ++ " " ++ t)) = some t := by
  have hdata : (X ++ " " ++ t).data = X.data ++ ' ' :: t.data := by
    rw [String.data_append, String.data_append]
    simp [String.data]
  have h1 : jsSplitSpaces (X ++ " " ++ t) = [X, t] := by
    unfold jsSplitSpaces
    rw [hdata, splitOnP_space_append X.data t.data
      (fun c hc => by simp [hX c hc]) (fun c hc => by simp [ht c hc])]
    rfl
  simp [extractToken, h1, htne]

theorem extractToken_no_space (t : String) (ht : ∀ c ∈ t.data, c ≠ ' ') :
    extractToken (some t) = none := by
  have h1 : jsSplitSpaces t = [t] := by
    unfold jsSplitSpaces
    rw [List.splitOnP_eq_single _ t.data (fun c hc => by simp [ht c hc])]
    rfl
  simp [extractToken, h1]

/-! ## Claim theorems: Access Guard -/

/-- C2: the Access Guard rejects a request without a bearer token with 401;
rejects a token whose verification fails with 401, where verification (here
instantiated with the modelled `jwtVerify`) fails on a malformed payload, a
bad signature, and on expiry regardless of the signature; rejects a verified
token whose role differs from the required role with 403; and otherwise
attaches the decoded payload and proceeds to the handler. -/
theorem accessGuard_branches (verify : String → Option JwtPayload)
    (requiredRole : Option String) (auth : Option String) (secret : String) (now : Nat) :
    (extractToken auth = none →
      authMiddleware verify requiredRole auth = .reject 401 "Access denied. No token provided.") ∧
    (∀ tok, extractToken auth = some tok → verify tok = none →
      authMiddleware verify requiredRole auth = .reject 401 "Invalid token.") ∧
    (∀ tok, decodeJwt tok = none → jwtVerify secret now tok = none) ∧
    (∀ tok p sig, decodeJwt tok = some (p, sig) → sig ≠ mkSig secret p →
      jwtVerify secret now tok = none) ∧
    (∀ tok p sig, decodeJwt tok = some (p, sig) → p.exp ≤ now →
      jwtVerify secret now tok = none) ∧
    (∀ tok p rr, extractToken auth = some tok → verify tok = some p → requiredRole = some rr →
      p.userType ≠ rr →
      authMiddleware verify requiredRole auth =
        .reject 403 "Access denied. Insufficient permissions.") ∧
    (∀ tok p, extractToken auth = some tok → verify tok = some p →
      (requiredRole = none ∨ requiredRole = some p.userType) →
      authMiddleware verify requiredRole auth = .proceed p) := by
  refine ⟨?_, ?_, ?_, ?_, ?_, ?_, ?_⟩
  · intro h
    simp [authMiddleware, h]
  · intro tok h hv
    simp [authMiddleware, h, hv]
  · intro tok h
    simp [jwtVerify, h]
  · intro tok p sig h hs
    simp [jwtVerify, h, hs]
  · intro tok p sig h hexp
    by_cases hs : sig = mkSig secret p
    · simp [jwtVerify, h, hs, hexp]
    · simp [jwtVerify, h, hs]
  · intro tok p rr h hv hr hne
    simp [authMiddleware, h, hv, hr, hne]
  · intro tok p h hv hr
    rcases hr with hr | hr <;> simp [authMiddleware, h, hv, hr]

/-- Witness for C2 at concrete inputs: each branch of the guard observed on a
concrete header, token and verifier. -/
theorem accessGuard_branches_witness :
    authMiddleware (fun _ => none) (some "user") none =
      .reject 401 "Access denied. No token provided." ∧
    authMiddleware (fun _ => none) (some "user") (some "Bearer x") =
      .reject 401 "Invalid token." ∧
    jwtVerify "s" 0 "garbage" = none ∧
    jwtVerify "s" 0 "7.user.100.3" = none ∧
    jwtVerify "s" 1000 "7.user.100.3" = none ∧
    authMiddleware (fun _ => some { id := 7, userType := "user", exp := 100 })
      (some "hospital") (some "Bearer x") =
      .reject 403 "Access denied. Insufficient permissions." ∧
    authMiddleware (fun _ => some { id := 7, userType := "user", exp := 100 })
      (some "user") (some "Bearer x") =
      .proceed { id := 7, userType := "user", exp := 100 } :=
  ⟨(accessGuard_branches (fun _ => none) (some "user") none "s" 0).1 rfl,
   (accessGuard_branches (fun _ => none) (some "user") (some "Bearer x") "s" 0).2.1
     "x" (by decide) rfl,
   (accessGuard_branches (fun _ => none) none none "s" 0).2.2.1 "garbage" (by decide),
   (accessGuard_branches (fun _ => none) none none "s" 0).2.2.2.1
     "7.user.100.3" { id := 7, userType := "user", exp := 100 } 3 (by decide) (by decide),
   (accessGuard_branches (fun _ => none) none none "s" 1000).2.2.2.2.1
     "7.user.100.3" { id := 7, userType := "user", exp := 100 } 3 (by decide) (by decide),
   (accessGuard_branches (fun _ => some { id := 7, userType := "user", exp := 100 })
     (some "hospital") (some "Bearer x") "s" 0).2.2.2.2.2.1
     "x" { id := 7, userType := "user", exp := 100 } "hospital" (by decide) rfl rfl (by decide),
   (accessGuard_branches (fun _ => some { id := 7, userType := "user", exp := 100 })
     (some "user") (some "Bearer x") "s" 0).2.2.2.2.2.2
     "x" { id := 7, userType := "user", exp := 100 } (by decide) rfl (Or.inr rfl)⟩

/-- C10: the guard never inspects the authorization scheme: the token is the
substring after the first space, so a header `X ++ " " ++ t` with any
space-free scheme word `X` yields token `t` (and is accepted whenever `t`
verifies), while a header holding the bare token with no space yields no
token at all and is rejected 401 exactly like a missing header. -/
theorem accessGuard_ignores_scheme (verify : String → Option JwtPayload)
    (requiredRole : Option String) (X t : String) (p : JwtPayload)
    (hX : ∀ c ∈ X.data, c ≠ ' ') (ht : ∀ c ∈ t.data, c ≠ ' ') (htne : t ≠ "") :
    extractToken (some (X ++ " " ++ t)) = some t ∧
    (verify t = some p → authMiddleware verify none (some (X ++ " " ++ t)) = .proceed p) ∧
    extractToken (some t) = none ∧
    authMiddleware verify requiredRole (some t) =
      .reject 401 "Access denied. No token provided." := by
  have hex := extractToken_after_scheme X t hX ht htne
  have hno := extractToken_no_space t ht
  refine ⟨hex, fun hv => ?_, hno, ?_⟩
  · simp [authMiddleware, hex, hv]
  · simp [authMiddleware, hno]

/-- Witness for C10: the scheme word `Basic` is accepted in place of
`Bearer`, and the bare token without a scheme is rejected as missing. -/
theorem accessGuard_ignores_scheme_witness :
    extractToken (some ("Basic" ++ " " ++ "tok123")) = some "tok123" ∧
    authMiddleware (fun _ => some { id := 1, userType := "user", exp := 9 }) none
      (some ("Basic" ++ " " ++ "tok123")) =
      .proceed { id := 1, userType := "user", exp := 9 } ∧
    extractToken (some "tok123") = none ∧
    authMiddleware (fun _ => some { id := 1, userType := "user", exp := 9 }) (some "user")
      (some "tok123") = .reject 401 "Access denied. No token provided." := by
  have h := accessGuard_ignores_scheme
    (fun _ => some { id := 1, userType := "user", exp := 9 }) (some "user")
    "Basic" "tok123" { id := 1, userType := "user", exp := 9 }
    (by decide) (by decide) (by decide)
  exact ⟨h.1, h.2.1 rfl, h.2.2.1, h.2.2.2⟩

/-! ## Claim theorems: owner-scoped mutations -/

/-- C1: when no row matches the combined key `(entityId, ownerId)` — in
particular when the entity id exists but under a different owner — each of
`updateDoctor`, `deleteDoctor`, `updateMedicine`, `deleteMedicine` answers
exactly the constant 404 `not found` response and leaves its table unchanged;
no 403 (or any owner-revealing response) is ever produced in this case. -/
theorem ownedMutation_notFound (ddb : List DoctorRow) (mdb : List MedicineRow)
    (eid oid : Nat) (patch : List (String × String))
    (hd : ∀ r ∈ ddb, ¬(r.doctor_id = eid ∧ r.hospital_id = oid))
    (hm : ∀ r ∈ mdb, ¬(r.medicine_id = eid ∧ r.pharmacy_id = oid)) :
    updateDoctor ddb eid oid patch =
      ({ status := 404, success := false, message := "Doctor not found" }, ddb) ∧
    deleteDoctor ddb eid oid =
      ({ status := 404, success := false, message := "Doctor not found" }, ddb) ∧
    updateMedicine mdb eid oid patch =
      ({ status := 404, success := false, message := "Medicine not found" }, mdb) ∧
    deleteMedicine mdb eid oid =
      ({ status := 404, success := false, message := "Medicine not found" }, mdb) := by
  have hdf : ddb.filter (fun r => r.doctor_id == eid && r.hospital_id == oid) = [] := by
    rw [List.filter_eq_nil_iff]
    intro r hr
    simp only [Bool.and_eq_true, beq_iff_eq]
    exact fun h => hd r hr ⟨h.1, h.2⟩
  have hmf : mdb.filter (fun r => r.medicine_id == eid && r.pharmacy_id == oid) = [] := by
    rw [List.filter_eq_nil_iff]
    intro r hr
    simp only [Bool.and_eq_true, beq_iff_eq]
    exact fun h => hm r hr ⟨h.1, h.2⟩
  have hdk : ddb.filter (fun r => !(r.doctor_id == eid && r.hospital_id == oid)) = ddb := by
    rw [List.filter_eq_self]
    intro r hr
    rw [Bool.not_eq_true', Bool.eq_false_iff]
    simp only [ne_eq, Bool.and_eq_true, beq_iff_eq]
    exact fun h => hd r hr ⟨h.1, h.2⟩
  have hmk : mdb.filter (fun r => !(r.medicine_id == eid && r.pharmacy_id == oid)) = mdb := by
    rw [List.filter_eq_self]
    intro r hr
    rw [Bool.not_eq_true', Bool.eq_false_iff]
    simp only [ne_eq, Bool.and_eq_true, beq_iff_eq]
    exact fun h => hm r hr ⟨h.1, h.2⟩
  refine ⟨?_, ?_, ?_, ?_⟩
  · simp only [updateDoctor, hdf, List.length_nil, if_pos]
  · simp only [deleteDoctor, hdf, hdk, List.length_nil, if_pos]
  · simp only [updateMedicine, hmf, List.length_nil, if_pos]
  · simp only [deleteMedicine, hmf, hmk, List.length_nil, if_pos]

/-- Witness for C1: a store where doctor 1 and medicine 1 both exist but
belong to owner 2; owner 3 gets the plain 404 and the rows survive. -/
theorem ownedMutation_notFound_witness :
    updateDoctor [{ doctor_id := 1, hospital_id := 2, cols := [("full_name", "Dr. A")] }] 1 3
      [("full_name", "Dr. B")] =
      ({ status := 404, success := false, message := "Doctor not found" },
       [{ doctor_id := 1, hospital_id := 2, cols := [("full_name", "Dr. A")] }]) ∧
    deleteDoctor [{ doctor_id := 1, hospital_id := 2, cols := [("full_name", "Dr. A")] }] 1 3 =
      ({ status := 404, success := false, message := "Doctor not found" },
       [{ doctor_id := 1, hospital_id := 2, cols := [("full_name", "Dr. A")] }]) ∧
    updateMedicine [{ medicine_id := 1, pharmacy_id := 2, cols := [("price", "5")] }] 1 3
      [("price", "9")] =
      ({ status := 404, success := false, message := "Medicine not found" },
       [{ medicine_id := 1, pharmacy_id := 2, cols := [("price", "5")] }]) ∧
    deleteMedicine [{ medicine_id := 1, pharmacy_id := 2, cols := [("price", "5")] }] 1 3 =
      ({ status := 404, success := false, message := "Medicine not found" },
       [{ medicine_id := 1, pharmacy_id := 2, cols := [("price", "5")] }]) :=
  ownedMutation_notFound
    [{ doctor_id := 1, hospital_id := 2, cols := [("full_name", "Dr. A")] }]
    [{ medicine_id := 1, pharmacy_id := 2, cols := [("price", "5")] }]
    1 3 [("full_name", "Dr. B")] (by decide) (by decide)

/-- C9: an empty patch on an existing, correctly-owned row does not succeed
as a no-op: the generated statement has an empty `SET` clause (shown
literally), its execution fails, and the handler answers 500 leaving the
table unchanged. -/
theorem emptyPatch_update_serverError (ddb : List DoctorRow) (mdb : List MedicineRow)
    (eid oid : Nat) (e2 o2 : String)
    (hd : ∃ r ∈ ddb, r.doctor_id = eid ∧ r.hospital_id = oid)
    (hm : ∃ r ∈ mdb, r.medicine_id = eid ∧ r.pharmacy_id = oid) :
    updateDoctor ddb eid oid [] =
      ({ status := 500, success := false, message := "Server error" }, ddb) ∧
    updateMedicine mdb eid oid [] =
      ({ status := 500, success := false, message := "Server error" }, mdb) ∧
    setClauseOf [] = "" ∧
    (buildDoctorUpdateQuery [] e2 o2).1 =
      "UPDATE doctors SET  WHERE doctor_id = $1 AND hospital_id = $2 RETURNING *" ∧
    (buildMedicineUpdateQuery [] e2 o2).1 =
      "UPDATE medicines SET  WHERE medicine_id = $1 AND pharmacy_id = $2 RETURNING *" := by
  obtain ⟨r, hr, hr1, hr2⟩ := hd
  obtain ⟨q, hq, hq1, hq2⟩ := hm
  have hdf : ddb.filter (fun s => s.doctor_id == eid && s.hospital_id == oid) ≠ [] := by
    intro hnil
    have : r ∈ ddb.filter (fun s => s.doctor_id == eid && s.hospital_id == oid) :=
      List.mem_filter.mpr ⟨hr, by simp [hr1, hr2]⟩
    simp [hnil] at this
  have hmf : mdb.filter (fun s => s.medicine_id == eid && s.pharmacy_id == oid) ≠ [] := by
    intro hnil
    have : q ∈ mdb.filter (fun s => s.medicine_id == eid && s.pharmacy_id == oid) :=
      List.mem_filter.mpr ⟨hq, by simp [hq1, hq2]⟩
    simp [hnil] at this
  refine ⟨?_, ?_, rfl, rfl, rfl⟩
  · simp [updateDoctor, List.length_eq_zero, hdf]
  · simp [updateMedicine, List.length_eq_zero, hmf]

/-- Witness for C9: the owner itself sends an empty patch for its own row and
still receives 500. -/
theorem emptyPatch_update_serverError_witness :
    updateDoctor [{ doctor_id := 1, hospital_id := 2, cols := [("full_name", "Dr. A")] }] 1 2 [] =
      ({ status := 500, success := false, message := "Server error" },
       [{ doctor_id := 1, hospital_id := 2, cols := [("full_name", "Dr. A")] }]) ∧
    updateMedicine [{ medicine_id := 1, pharmacy_id := 2, cols := [("price", "5")] }] 1 2 [] =
      ({ status := 500, success := false, message := "Server error" },
       [{ medicine_id := 1, pharmacy_id := 2, cols := [("price", "5")] }]) :=
  by
  have h := emptyPatch_update_serverError
    [{ doctor_id := 1, hospital_id := 2, cols := [("full_name", "Dr. A")] }]
    [{ medicine_id := 1, pharmacy_id := 2, cols := [("price", "5")] }]
    1 2 "1" "2" (by decide) (by decide)
  exact ⟨h.1, h.2.1⟩

/-! ## Claim theorems: credential flows -/

/-- C3: for each role's login, the unknown-email failure and the
wrong-password failure produce the very same outcome — status 401 with the
message `Invalid credentials` — so the response does not reveal which check
failed.  `compare` is the bcrypt comparison; `eN`/`pN` pick, per role, one
email matching no row and one email whose first matching row does not verify
against the supplied password. -/
theorem login_uniform_invalid_credentials (compare : String → String → Bool)
    (udb : List User) (hdb : List Hospital) (pdb : List Pharmacy)
    (e1 p1 e2 p2 e3 p3 e4 p4 e5 p5 e6 p6 : String)
    (hu1 : udb.filter (fun u => u.email == e1) = [])
    (hu2 : ∃ u, (udb.filter (fun v => v.email == e2)).head? = some u ∧
      compare p2 u.password_hash = false)
    (hh1 : hdb.filter (fun h => h.email == e3) = [])
    (hh2 : ∃ h, (hdb.filter (fun g => g.email == e4)).head? = some h ∧
      compare p4 h.password_hash = false)
    (hp1 : pdb.filter (fun p => p.email == e5) = [])
    (hp2 : ∃ p, (pdb.filter (fun q => q.email == e6)).head? = some p ∧
      compare p6 p.password_hash = false) :
    loginUser compare udb e1 p1 = .fail 401 "Invalid credentials" ∧
    loginUser compare udb e2 p2 = .fail 401 "Invalid credentials" ∧
    loginUser compare udb e1 p1 = loginUser compare udb e2 p2 ∧
    hospitalLogin compare hdb e3 p3 = .fail 401 "Invalid credentials" ∧
    hospitalLogin compare hdb e4 p4 = .fail 401 "Invalid credentials" ∧
    hospitalLogin compare hdb e3 p3 = hospitalLogin compare hdb e4 p4 ∧
    pharmacyLogin compare pdb e5 p5 = .fail 401 "Invalid credentials" ∧
    pharmacyLogin compare pdb e6 p6 = .fail 401 "Invalid credentials" ∧
    pharmacyLogin compare pdb e5 p5 = pharmacyLogin compare pdb e6 p6 := by
  obtain ⟨u, hu, hcu⟩ := hu2
  obtain ⟨h, hh, hch⟩ := hh2
  obtain ⟨p, hp, hcp⟩ := hp2
  have l1 : loginUser compare udb e1 p1 = .fail 401 "Invalid credentials" := by
    simp [loginUser, hu1]
  have l2 : loginUser compare udb e2 p2 = .fail 401 "Invalid credentials" := by
    simp [loginUser, hu, hcu]
  have l3 : hospitalLogin compare hdb e3 p3 = .fail 401 "Invalid credentials" := by
    simp [hospitalLogin, hh1]
  have l4 : hospitalLogin compare hdb e4 p4 = .fail 401 "Invalid credentials" := by
    simp [hospitalLogin, hh, hch]
  have l5 : pharmacyLogin compare pdb e5 p5 = .fail 401 "Invalid credentials" := by
    simp [pharmacyLogin, hp1]
  have l6 : pharmacyLogin compare pdb e6 p6 = .fail 401 "Invalid credentials" := by
    simp [pharmacyLogin, hp, hcp]
  exact ⟨l1, l2, l1.trans l2.symm, l3, l4, l3.trans l4.symm, l5, l6, l5.trans l6.symm⟩

/-- Witness for C3: one-row tables; `a@x.com` is unknown, `b@x.com` exists
but the password comparison fails; all three roles return the identical
response either way. -/
theorem login_uniform_invalid_credentials_witness :
    loginUser (fun _ _ => false)
      [{ user_id := 1, full_name := "U", email := "b@x.com", password_hash := "H" }]
      "a@x.com" "pw" = .fail 401 "Invalid credentials" ∧
    loginUser (fun _ _ => false)
      [{ user_id := 1, full_name := "U", email := "b@x.com", password_hash := "H" }]
      "b@x.com" "pw" = .fail 401 "Invalid credentials" ∧
    hospitalLogin (fun _ _ => false)
      [{ hospital_id := 1, hospital_name := "H1", email := "b@x.com", password_hash := "H",
         address := "A", city := "C", phone := "P", is_active := true }]
      "a@x.com" "pw" = .fail 401 "Invalid credentials" ∧
    hospitalLogin (fun _ _ => false)
      [{ hospital_id := 1, hospital_name := "H1", email := "b@x.com", password_hash := "H",
         address := "A", city := "C", phone := "P", is_active := true }]
      "b@x.com" "pw" = .fail 401 "Invalid credentials" ∧
    pharmacyLogin (fun _ _ => false)
      [{ pharmacy_id := 1, pharmacy_name := "P1", email := "b@x.com", password_hash := "H",
         address := "A", city := "C", phone := "P", is_active := true }]
      "a@x.com" "pw" = .fail 401 "Invalid credentials" ∧
    pharmacyLogin (fun _ _ => false)
      [{ pharmacy_id := 1, pharmacy_name := "P1", email := "b@x.com", password_hash := "H",
         address := "A", city := "C", phone := "P", is_active := true }]
      "b@x.com" "pw" = .fail 401 "Invalid credentials" := by
  have h := login_uniform_invalid_credentials (fun _ _ => false)
    [{ user_id := 1, full_name := "U", email := "b@x.com", password_hash := "H" }]
    [{ hospital_id := 1, hospital_name := "H1", email := "b@x.com", password_hash := "H",
       address := "A", city := "C", phone := "P", is_active := true }]
    [{ pharmacy_id := 1, pharmacy_name := "P1", email := "b@x.com", password_hash := "H",
       address := "A", city := "C", phone := "P", is_active := true }]
    "a@x.com" "pw" "b@x.com" "pw" "a@x.com" "pw" "b@x.com" "pw" "a@x.com" "pw" "b@x.com" "pw"
    (by decide)
    ⟨{ user_id := 1, full_name := "U", email := "b@x.com", password_hash := "H" },
      by decide, rfl⟩
    (by decide)
    ⟨{ hospital_id := 1, hospital_name := "H1", email := "b@x.com", password_hash := "H",
       address := "A", city := "C", phone := "P", is_active := true }, by decide, rfl⟩
    (by decide)
    ⟨{ pharmacy_id := 1, pharmacy_name := "P1", email := "b@x.com", password_hash := "H",
       address := "A", city := "C", phone := "P", is_active := true }, by decide, rfl⟩
  exact ⟨h.1, h.2.1, h.2.2.2.1, h.2.2.2.2.1, h.2.2.2.2.2.2.1, h.2.2.2.2.2.2.2.1⟩

/-- C4: registering an email that already exists in the same role's table
fails with 400 and inserts nothing, while the same email in a different
role's table registers fine (201, one row appended): the duplicate check
consults only the registering role's own table.  The three emails cover the
three role pairs. -/
theorem register_duplicate_only_own_table (hashFn : String → String)
    (udb : List User) (hdb : List Hospital) (pdb : List Pharmacy)
    (e1 e2 e3 : String) (nid : Nat)
    (n1 n2 n3 pw ad ci ph : String)
    (h1u : ∃ u ∈ udb, u.email = e1) (h1h : ∀ h ∈ hdb, h.email ≠ e1)
    (h2h : ∃ h ∈ hdb, h.email = e2) (h2p : ∀ p ∈ pdb, p.email ≠ e2)
    (h3p : ∃ p ∈ pdb, p.email = e3) (h3u : ∀ u ∈ udb, u.email ≠ e3) :
    registerUser hashFn udb nid n1 e1 pw =
      ({ status := 400, success := false, message := "User already exists" }, udb) ∧
    hospitalRegister hashFn hdb nid n2 e1 pw ad ci ph =
      ({ status := 201, success := true, message := "Hospital registered successfully" },
       hdb ++ [{ hospital_id := nid, hospital_name := n2, email := e1,
                 password_hash := hashFn pw, address := ad, city := ci,
                 phone := ph, is_active := true }]) ∧
    hospitalRegister hashFn hdb nid n2 e2 pw ad ci ph =
      ({ status := 400, success := false, message := "Hospital already exists" }, hdb) ∧
    pharmacyRegister hashFn pdb nid n3 e2 pw ad ci ph =
      ({ status := 201, success := true, message := "Pharmacy registered successfully" },
       pdb ++ [{ pharmacy_id := nid, pharmacy_name := n3, email := e2,
                 password_hash := hashFn pw, address := ad, city := ci,
                 phone := ph, is_active := true }]) ∧
    pharmacyRegister hashFn pdb nid n3 e3 pw ad ci ph =
      ({ status := 400, success := false, message := "Pharmacy already exists" }, pdb) ∧
    registerUser hashFn udb nid n1 e3 pw =
      ({ status := 201, success := true, message := "User registered successfully" },
       udb ++ [{ user_id := nid, full_name := n1, email := e3,
                 password_hash := hashFn pw }]) := by
  obtain ⟨u, hu, hue⟩ := h1u
  obtain ⟨h, hh, hhe⟩ := h2h
  obtain ⟨p, hp, hpe⟩ := h3p
  have fu : 0 < (udb.filter (fun v => v.email == e1)).length :=
    List.length_pos.mpr (fun hnil => by
      have := List.filter_eq_nil_iff.mp hnil u hu
      simp [hue] at this)
  have fh : 0 < (hdb.filter (fun g => g.email == e2)).length :=
    List.length_pos.mpr (fun hnil => by
      have := List.filter_eq_nil_iff.mp hnil h hh
      simp [hhe] at this)
  have fp : 0 < (pdb.filter (fun q => q.email == e3)).length :=
    List.length_pos.mpr (fun hnil => by
      have := List.filter_eq_nil_iff.mp hnil p hp
      simp [hpe] at this)
  have gu : udb.filter (fun v => v.email == e3) = [] :=
    List.filter_eq_nil_iff.mpr (fun v hv => by simp [h3u v hv])
  have gh : hdb.filter (fun g => g.email == e1) = [] :=
    List.filter_eq_nil_iff.mpr (fun g hg => by simp [h1h g hg])
  have gp : pdb.filter (fun q => q.email == e2) = [] :=
    List.filter_eq_nil_iff.mpr (fun q hq => by simp [h2p q hq])
  refine ⟨?_, ?_, ?_, ?_, ?_, ?_⟩
  · simp [registerUser, fu]
  · simp [hospitalRegister, gh]
  · simp [hospitalRegister, fh]
  · simp [pharmacyRegister, gp]
  · simp [pharmacyRegister, fp]
  · simp [registerUser, gu]

/-- Witness for C4: `a@x.com` is a user, `b@x.com` a hospital, `c@x.com` a
pharmacy; each re-registration in the same table is a 400 conflict and each
cross-role registration succeeds. -/
theorem register_duplicate_only_own_table_witness :
    registerUser (fun s => s ++ "#")
      [{ user_id := 1, full_name := "U", email := "a@x.com", password_hash := "H" }]
      9 "N" "a@x.com" "pw" =
      ({ status := 400, success := false, message := "User already exists" },
       [{ user_id := 1, full_name := "U", email := "a@x.com", password_hash := "H" }]) ∧
    hospitalRegister (fun s => s ++ "#")
      [{ hospital_id := 1, hospital_name := "H1", email := "b@x.com", password_hash := "H",
         address := "A", city := "C", phone := "P", is_active := true }]
      9 "N" "a@x.com" "pw" "A" "C" "P" =
      ({ status := 201, success := true, message := "Hospital registered successfully" },
       [{ hospital_id := 1, hospital_name := "H1", email := "b@x.com", password_hash := "H",
          address := "A", city := "C", phone := "P", is_active := true },
        { hospital_id := 9, hospital_name := "N", email := "a@x.com", password_hash := "pw#",
          address := "A", city := "C", phone := "P", is_active := true }]) := by
  have h := register_duplicate_only_own_table (fun s => s ++ "#")
    [{ user_id := 1, full_name := "U", email := "a@x.com", password_hash := "H" }]
    [{ hospital_id := 1, hospital_name := "H1", email := "b@x.com", password_hash := "H",
       address := "A", city := "C", phone := "P", is_active := true }]
    [{ pharmacy_id := 1, pharmacy_name := "P1", email := "c@x.com", password_hash := "H",
       address := "A", city := "C", phone := "P", is_active := true }]
    "a@x.com" "b@x.com" "c@x.com" 9 "N" "N" "N" "pw" "A" "C" "P"
    ⟨{ user_id := 1, full_name := "U", email := "a@x.com", password_hash := "H" },
      by decide, rfl⟩
    (by decide)
    ⟨{ hospital_id := 1, hospital_name := "H1", email := "b@x.com", password_hash := "H",
       address := "A", city := "C", phone := "P", is_active := true }, by decide, rfl⟩
    (by decide)
    ⟨{ pharmacy_id := 1, pharmacy_name := "P1", email := "c@x.com", password_hash := "H",
       address := "A", city := "C", phone := "P", is_active := true }, by decide, rfl⟩
    (by decide)
  exact ⟨h.1, by simpa using h.2.1⟩

/-! ## Claim theorems: searches -/

/-- C5: `searchDoctors` returns exactly the joined (doctor, owning hospital)
rows that are available/active and satisfy every present filter as a
case-insensitive substring match, conjoined; the result is ordered by doctor
full name ascending; and when nothing matches the handler still answers a
success envelope with an empty list. -/
theorem searchDoctors_spec (ds : List Doctor) (hs : List Hospital) (s c hn : String) :
    (∀ x, x ∈ searchDoctors ds hs s c hn ↔ DoctorSearchSpec ds hs s c hn x) ∧
    (searchDoctors ds hs s c hn).Pairwise (fun a b => nameLe a.1.full_name b.1.full_name) ∧
    ((∀ x ∈ joinDoctors ds hs, ¬ DoctorSearchSpec ds hs s c hn x) →
      searchDoctorsResponse ds hs s c hn =
        { status := 200, success := true, count := 0, data := [] }) := by
  refine ⟨fun x => mem_searchDoctors, sorted_searchDoctors ds hs s c hn, fun h => ?_⟩
  have hnil := searchDoctors_eq_nil h
  simp [searchDoctorsResponse, hnil]

/-- Witness for C5: a store with one available cardiologist in one active
hospital; the filter `cardio` matches it case-insensitively, and the
unmatched filter `zzz` produces the empty success envelope. -/
theorem searchDoctors_spec_witness :
    ({ doctor_id := 1, hospital_id := 1, full_name := "Dr. A",
       specialization := "Cardiology", is_available := true },
     { hospital_id := 1, hospital_name := "City Hospital", email := "e",
       password_hash := "H", address := "A", city := "Pune", phone := "P",
       is_active := true }) ∈
      searchDoctors
        [{ doctor_id := 1, hospital_id := 1, full_name := "Dr. A",
           specialization := "Cardiology", is_available := true }]
        [{ hospital_id := 1, hospital_name := "City Hospital", email := "e",
           password_hash := "H", address := "A", city := "Pune", phone := "P",
           is_active := true }] "cardio" "" "" ∧
    searchDoctorsResponse
        [{ doctor_id := 1, hospital_id := 1, full_name := "Dr. A",
           specialization := "Cardiology", is_available := true }]
        [{ hospital_id := 1, hospital_name := "City Hospital", email := "e",
           password_hash := "H", address := "A", city := "Pune", phone := "P",
           is_active := true }] "zzz" "" "" =
      { status := 200, success := true, count := 0, data := [] } := by
  have h1 := searchDoctors_spec
    [{ doctor_id := 1, hospital_id := 1, full_name := "Dr. A",
       specialization := "Cardiology", is_available := true }]
    [{ hospital_id := 1, hospital_name := "City Hospital", email := "e",
       password_hash := "H", address := "A", city := "Pune", phone := "P",
       is_active := true }] "cardio" "" ""
  have h2 := searchDoctors_spec
    [{ doctor_id := 1, hospital_id := 1, full_name := "Dr. A",
       specialization := "Cardiology", is_available := true }]
    [{ hospital_id := 1, hospital_name := "City Hospital", email := "e",
       password_hash := "H", address := "A", city := "Pune", phone := "P",
       is_active := true }] "zzz" "" ""
  exact ⟨(h1.1 _).mpr (by decide), h2.2.2 (by decide)⟩

/-- C6: `searchMedicines` returns exactly the joined (medicine, owning
pharmacy) rows that are available, in stock and active, where the
`medicine_name` filter may match the display name OR the generic name and is
conjoined with the other present filters; ordered by medicine name; empty
success envelope when nothing matches. -/
theorem searchMedicines_spec (ms : List Medicine) (ps : List Pharmacy) (mn c cat : String) :
    (∀ x, x ∈ searchMedicines ms ps mn c cat ↔ MedicineSearchSpec ms ps mn c cat x) ∧
    (searchMedicines ms ps mn c cat).Pairwise
      (fun a b => nameLe a.1.medicine_name b.1.medicine_name) ∧
    ((∀ x ∈ joinMedicines ms ps, ¬ MedicineSearchSpec ms ps mn c cat x) →
      searchMedicinesResponse ms ps mn c cat =
        { status := 200, success := true, count := 0, data := [] }) := by
  refine ⟨fun x => mem_searchMedicines, sorted_searchMedicines ms ps mn c cat, fun h => ?_⟩
  have hnil := searchMedicines_eq_nil h
  simp [searchMedicinesResponse, hnil]

/-- Witness for C6: the filter `para` misses the display name `Crocin` but
matches the generic name `Paracetamol`; the `zzz` filter produces the empty
success envelope. -/
theorem searchMedicines_spec_witness :
    ({ medicine_id := 1, pharmacy_id := 1, medicine_name := "Crocin",
       generic_name := "Paracetamol", category := "Analgesic", stock_quantity := 5,
       is_available := true },
     { pharmacy_id := 1, pharmacy_name := "GoodRx", email := "e", password_hash := "H",
       address := "A", city := "Pune", phone := "P", is_active := true }) ∈
      searchMedicines
        [{ medicine_id := 1, pharmacy_id := 1, medicine_name := "Crocin",
           generic_name := "Paracetamol", category := "Analgesic", stock_quantity := 5,
           is_available := true }]
        [{ pharmacy_id := 1, pharmacy_name := "GoodRx", email := "e", password_hash := "H",
           address := "A", city := "Pune", phone := "P", is_active := true }] "para" "" "" ∧
    searchMedicinesResponse
        [{ medicine_id := 1, pharmacy_id := 1, medicine_name := "Crocin",
           generic_name := "Paracetamol", category := "Analgesic", stock_quantity := 5,
           is_available := true }]
        [{ pharmacy_id := 1, pharmacy_name := "GoodRx", email := "e", password_hash := "H",
           address := "A", city := "Pune", phone := "P", is_active := true }] "zzz" "" "" =
      { status := 200, success := true, count := 0, data := [] } := by
  have h1 := searchMedicines_spec
    [{ medicine_id := 1, pharmacy_id := 1, medicine_name := "Crocin",
       generic_name := "Paracetamol", category := "Analgesic", stock_quantity := 5,
       is_available := true }]
    [{ pharmacy_id := 1, pharmacy_name := "GoodRx", email := "e", password_hash := "H",
       address := "A", city := "Pune", phone := "P", is_active := true }] "para" "" ""
  have h2 := searchMedicines_spec
    [{ medicine_id := 1, pharmacy_id := 1, medicine_name := "Crocin",
       generic_name := "Paracetamol", category := "Analgesic", stock_quantity := 5,
       is_available := true }]
    [{ pharmacy_id := 1, pharmacy_name := "GoodRx", email := "e", password_hash := "H",
       address := "A", city := "Pune", phone := "P", is_active := true }] "zzz" "" ""
  exact ⟨(h1.1 _).mpr (by decide), h2.2.2 (by decide)⟩

/-- C7 counterexample: adding a present filter does NOT strictly narrow the
result set.  In a store whose only eligible doctor is a cardiologist, the
search with the additional filter `cardio` returns exactly the same nonempty
result as the search with no filters, so the claimed strict-subset relation
fails at this input. -/
theorem search_filter_strictness_counterexample :
    searchDoctors
        [{ doctor_id := 1, hospital_id := 1, full_name := "Dr. A",
           specialization := "Cardiology", is_available := true }]
        [{ hospital_id := 1, hospital_name := "City Hospital", email := "e",
           password_hash := "H", address := "A", city := "Pune", phone := "P",
           is_active := true }] "cardio" "" "" =
      searchDoctors
        [{ doctor_id := 1, hospital_id := 1, full_name := "Dr. A",
           specialization := "Cardiology", is_available := true }]
        [{ hospital_id := 1, hospital_name := "City Hospital", email := "e",
           password_hash := "H", address := "A", city := "Pune", phone := "P",
           is_active := true }] "" "" "" ∧
    searchDoctors
        [{ doctor_id := 1, hospital_id := 1, full_name := "Dr. A",
           specialization := "Cardiology", is_available := true }]
        [{ hospital_id := 1, hospital_name := "City Hospital", email := "e",
           password_hash := "H", address := "A", city := "Pune", phone := "P",
           is_active := true }] "" "" "" =
      [({ doctor_id := 1, hospital_id := 1, full_name := "Dr. A",
          specialization := "Cardiology", is_available := true },
        { hospital_id := 1, hospital_name := "City Hospital", email := "e",
          password_hash := "H", address := "A", city := "Pune", phone := "P",
          is_active := true })] := by
  exact ⟨by decide, by decide⟩

/-- C7 (amended): a search with no filters returns exactly the eligible
(available/active) joined rows, ordered by name; each additional present
filter narrows the result to a subset — not necessarily strict — of the
result without it; and a filter combination matching nothing yields the
empty list, not an error. -/
theorem search_filter_monotone (ds : List Doctor) (hs : List Hospital)
    (ms : List Medicine) (ps : List Pharmacy) :
    (∀ x, x ∈ searchDoctors ds hs "" "" "" ↔
      (x.1 ∈ ds ∧ x.2 ∈ hs ∧ x.1.hospital_id = x.2.hospital_id ∧
       x.1.is_available = true ∧ x.2.is_active = true)) ∧
    (searchDoctors ds hs "" "" "").Pairwise (fun a b => nameLe a.1.full_name b.1.full_name) ∧
    (∀ s c hn x, x ∈ searchDoctors ds hs s c hn →
      x ∈ searchDoctors ds hs "" c hn ∧ x ∈ searchDoctors ds hs s "" hn ∧
      x ∈ searchDoctors ds hs s c "") ∧
    (∀ s c hn, (∀ x ∈ joinDoctors ds hs, ¬ DoctorSearchSpec ds hs s c hn x) →
      searchDoctors ds hs s c hn = []) ∧
    (∀ x, x ∈ searchMedicines ms ps "" "" "" ↔
      (x.1 ∈ ms ∧ x.2 ∈ ps ∧ x.1.pharmacy_id = x.2.pharmacy_id ∧
       x.1.is_available = true ∧ 0 < x.1.stock_quantity ∧ x.2.is_active = true)) ∧
    (searchMedicines ms ps "" "" "").Pairwise
      (fun a b => nameLe a.1.medicine_name b.1.medicine_name) ∧
    (∀ mn c cat x, x ∈ searchMedicines ms ps mn c cat →
      x ∈ searchMedicines ms ps "" c cat ∧ x ∈ searchMedicines ms ps mn "" cat ∧
      x ∈ searchMedicines ms ps mn c "") ∧
    (∀ mn c cat, (∀ x ∈ joinMedicines ms ps, ¬ MedicineSearchSpec ms ps mn c cat x) →
      searchMedicines ms ps mn c cat = []) := by
  refine ⟨?_, sorted_searchDoctors ds hs "" "" "", ?_, fun s c hn h => searchDoctors_eq_nil h,
    ?_, sorted_searchMedicines ms ps "" "" "", ?_,
    fun mn c cat h => searchMedicines_eq_nil h⟩
  · intro x
    rw [mem_searchDoctors]
    unfold DoctorSearchSpec
    simp
  · intro s c hn x hx
    rw [mem_searchDoctors] at hx
    obtain ⟨h1, h2, h3, h4, h5, h6, h7, h8⟩ := hx
    refine ⟨mem_searchDoctors.mpr ⟨h1, h2, h3, h4, h5, by simp, h7, h8⟩,
      mem_searchDoctors.mpr ⟨h1, h2, h3, h4, h5, h6, by simp, h8⟩,
      mem_searchDoctors.mpr ⟨h1, h2, h3, h4, h5, h6, h7, by simp⟩⟩
  · intro x
    rw [mem_searchMedicines]
    unfold MedicineSearchSpec
    simp
  · intro mn c cat x hx
    rw [mem_searchMedicines] at hx
    obtain ⟨h1, h2, h3, h4, h5, h6, h7, h8, h9⟩ := hx
    refine ⟨mem_searchMedicines.mpr ⟨h1, h2, h3, h4, h5, h6, by simp, h8, h9⟩,
      mem_searchMedicines.mpr ⟨h1, h2, h3, h4, h5, h6, h7, by simp, h9⟩,
      mem_searchMedicines.mpr ⟨h1, h2, h3, h4, h5, h6, h7, h8, by simp⟩⟩

/-- Witness for C7 (amended): in the one-cardiologist store, a row of the
filtered search is also in the searches with one fewer filter, and the
unmatched value `zzz` gives the empty list. -/
theorem search_filter_monotone_witness :
    (({ doctor_id := 1, hospital_id := 1, full_name := "Dr. A",
        specialization := "Cardiology", is_available := true },
      { hospital_id := 1, hospital_name := "City Hospital", email := "e",
        password_hash := "H", address := "A", city := "Pune", phone := "P",
        is_active := true }) ∈
      searchDoctors
        [{ doctor_id := 1, hospital_id := 1, full_name := "Dr. A",
           specialization := "Cardiology", is_available := true }]
        [{ hospital_id := 1, hospital_name := "City Hospital", email := "e",
           password_hash := "H", address := "A", city := "Pune", phone := "P",
           is_active := true }] "" "" "") ∧
    searchDoctors
        [{ doctor_id := 1, hospital_id := 1, full_name := "Dr. A",
           specialization := "Cardiology", is_available := true }]
        [{ hospital_id := 1, hospital_name := "City Hospital", email := "e",
           password_hash := "H", address := "A", city := "Pune", phone := "P",
           is_active := true }] "zzz" "" "" = [] := by
  have h := search_filter_monotone
    [{ doctor_id := 1, hospital_id := 1, full_name := "Dr. A",
       specialization := "Cardiology", is_available := true }]
    [{ hospital_id := 1, hospital_name := "City Hospital", email := "e",
       password_hash := "H", address := "A", city := "Pune", phone := "P",
       is_active := true }] [] []
  exact ⟨(h.2.2.1 "cardio" "" "" _ (by decide)).1, h.2.2.2.1 "zzz" "" "" (by decide)⟩

/-! ## Helper lemmas: intercalated text contains its parts -/

theorem intercalate_go_append (s : String) (as : List String) (acc : String) :
    ∃ post, String.intercalate.go acc s as = acc ++ post := by
  induction as generalizing acc with
  | nil => exact ⟨"", (String.append_empty acc).symm⟩
  | cons a as ih =>
    obtain ⟨post, hp⟩ := ih (acc ++ s ++ a)
    refine ⟨s ++ (a ++ post), ?_⟩
    show String.intercalate.go (acc ++ s ++ a) s as = _
    rw [hp, String.append_assoc, String.append_assoc]

theorem intercalate_go_contains (s x : String) (as : List String) (h : x ∈ as) (acc : String) :
    ∃ pre post, String.intercalate.go acc s as = pre ++ x ++ post := by
  induction as generalizing acc with
  | nil => cases h
  | cons a as ih =>
    rcases List.mem_cons.mp h with rfl | hx
    · obtain ⟨post, hp⟩ := intercalate_go_append s as (acc ++ s ++ x)
      refine ⟨acc ++ s, post, ?_⟩
      show String.intercalate.go (acc ++ s ++ x) s as = _
      rw [hp]
    · obtain ⟨pre, post, hp⟩ := ih hx (acc ++ s ++ a)
      exact ⟨pre, post, hp⟩

theorem intercalate_contains (s x : String) (parts : List String) (h : x ∈ parts) :
    ∃ pre post, String.intercalate s parts = pre ++ x ++ post := by
  cases parts with
  | nil => cases h
  | cons a as =>
    rcases List.mem_cons.mp h with rfl | hx
    · obtain ⟨post, hp⟩ := intercalate_go_append s as x
      refine ⟨"", post, ?_⟩
      show String.intercalate.go x s as = _
      rw [hp, String.empty_append]
    · obtain ⟨pre, post, hp⟩ := intercalate_go_contains s x as hx a
      exact ⟨pre, post, hp⟩

theorem setClauseOf_contains (fields : List String) (f : String) (h : f ∈ fields) :
    ∃ pre post, setClauseOf fields = pre ++ f ++ post := by
  obtain ⟨i, hi, rfl⟩ := List.mem_iff_getElem.mp h
  have hmem : fields[i] ++ " = $" ++ toString (i + 1) ∈
      fields.enum.map (fun p => p.2 ++ " = $" ++ toString (p.1 + 1)) := by
    refine List.mem_map.mpr ⟨(i, fields[i]), ?_, rfl⟩
    have h1 : i < fields.enum.length := by simpa using hi
    have h2 : fields.enum[i] = (i, fields[i]) := List.getElem_enum fields i h1
    exact h2 ▸ List.getElem_mem h1
  obtain ⟨pre, post, hp⟩ := intercalate_contains ", " _ _ hmem
  refine ⟨pre, " = $" ++ toString (i + 1) ++ post, ?_⟩
  rw [setClauseOf, hp]
  simp [String.append_assoc]

/-- C8: for a non-empty patch, the dynamic update statement binds the patch
values as parameters in the order of the patch's keys, appends the two fixed
`WHERE` parameters (entityId, ownerId) at positions `n+1` and `n+2`,
interpolates every caller-supplied column name into the statement text, and
the statement text is a function of the field names alone — the values are
never interpolated into it.  Stated for both `updateDoctor`'s and
`updateMedicine`'s builders. -/
theorem updateQuery_parameterization (u : List (String × String)) (eid oid : String)
    (_hne : u ≠ []) :
    ((buildDoctorUpdateQuery u eid oid).2 = u.map Prod.snd ++ [eid, oid]) ∧
    ((buildDoctorUpdateQuery u eid oid).2.take u.length = u.map Prod.snd) ∧
    ((buildDoctorUpdateQuery u eid oid).2[u.length]? = some eid) ∧
    ((buildDoctorUpdateQuery u eid oid).2[u.length + 1]? = some oid) ∧
    (∀ f ∈ u.map Prod.fst, ∃ pre post,
      (buildDoctorUpdateQuery u eid oid).1 = pre ++ f ++ post) ∧
    (∀ v e2 o2, v.map Prod.fst = u.map Prod.fst →
      (buildDoctorUpdateQuery v e2 o2).1 = (buildDoctorUpdateQuery u eid oid).1) ∧
    ((buildMedicineUpdateQuery u eid oid).2 = u.map Prod.snd ++ [eid, oid]) ∧
    ((buildMedicineUpdateQuery u eid oid).2.take u.length = u.map Prod.snd) ∧
    ((buildMedicineUpdateQuery u eid oid).2[u.length]? = some eid) ∧
    ((buildMedicineUpdateQuery u eid oid).2[u.length + 1]? = some oid) ∧
    (∀ f ∈ u.map Prod.fst, ∃ pre post,
      (buildMedicineUpdateQuery u eid oid).1 = pre ++ f ++ post) ∧
    (∀ v e2 o2, v.map Prod.fst = u.map Prod.fst →
      (buildMedicineUpdateQuery v e2 o2).1 = (buildMedicineUpdateQuery u eid oid).1) := by
  have hparams : updateParams u eid oid = u.map Prod.snd ++ [eid, oid] := rfl
  have htake : (u.map Prod.snd ++ [eid, oid]).take u.length = u.map Prod.snd := by
    simp
  have hget1 : (u.map Prod.snd ++ [eid, oid])[u.length]? = some eid := by
    rw [List.getElem?_append_right (by simp)]
    simp
  have hget2 : (u.map Prod.snd ++ [eid, oid])[u.length + 1]? = some oid := by
    rw [List.getElem?_append_right (by simp)]
    simp
  have hcontainsD : ∀ f ∈ u.map Prod.fst, ∃ pre post,
      (buildDoctorUpdateQuery u eid oid).1 = pre ++ f ++ post := by
    intro f hf
    obtain ⟨pre, post, hp⟩ := setClauseOf_contains (u.map Prod.fst) f hf
    refine ⟨"UPDATE doctors SET " ++ pre,
      post ++ " WHERE doctor_id = $" ++ toString (u.length + 1)
        ++ " AND hospital_id = $" ++ toString (u.length + 2) ++ " RETURNING *", ?_⟩
    show "UPDATE doctors SET " ++ setClauseOf (u.map Prod.fst) ++ _ ++ _ ++ _ ++ _ ++ _ = _
    rw [hp]
    simp [String.append_assoc]
  have hcontainsM : ∀ f ∈ u.map Prod.fst, ∃ pre post,
      (buildMedicineUpdateQuery u eid oid).1 = pre ++ f ++ post := by
    intro f hf
    obtain ⟨pre, post, hp⟩ := setClauseOf_contains (u.map Prod.fst) f hf
    refine ⟨"UPDATE medicines SET " ++ pre,
      post ++ " WHERE medicine_id = $" ++ toString (u.length + 1)
        ++ " AND pharmacy_id = $" ++ toString (u.length + 2) ++ " RETURNING *", ?_⟩
    show "UPDATE medicines SET " ++ setClauseOf (u.map Prod.fst) ++ _ ++ _ ++ _ ++ _ ++ _ = _
    rw [hp]
    simp [String.append_assoc]
  have hdepD : ∀ v e2 o2, v.map Prod.fst = u.map Prod.fst →
      (buildDoctorUpdateQuery v e2 o2).1 = (buildDoctorUpdateQuery u eid oid).1 := by
    intro v e2 o2 hv
    have hlen : v.length = u.length := by
      rw [← List.length_map v Prod.fst, hv, List.length_map]
    simp [buildDoctorUpdateQuery, hv, hlen]
  have hdepM : ∀ v e2 o2, v.map Prod.fst = u.map Prod.fst →
      (buildMedicineUpdateQuery v e2 o2).1 = (buildMedicineUpdateQuery u eid oid).1 := by
    intro v e2 o2 hv
    have hlen : v.length = u.length := by
      rw [← List.length_map v Prod.fst, hv, List.length_map]
    simp [buildMedicineUpdateQuery, hv, hlen]
  exact ⟨hparams, htake, hget1, hget2, hcontainsD, hdepD,
    hparams, htake, hget1, hget2, hcontainsM, hdepM⟩

/-- Witness for C8: a two-field patch; the parameter list is the two values
then the two key parameters, and the statement text contains the first field
name. -/
theorem updateQuery_parameterization_witness :
    (buildDoctorUpdateQuery [("full_name", "Dr. B"), ("is_available", "false")] "1" "2").2 =
      ["Dr. B", "false", "1", "2"] ∧
    (buildDoctorUpdateQuery [("full_name", "Dr. B"), ("is_available", "false")] "1" "2").2[2]? =
      some "1" ∧
    (buildDoctorUpdateQuery [("full_name", "Dr. B"), ("is_available", "false")] "1" "2").2[3]? =
      some "2" ∧
    (∃ pre post,
      (buildDoctorUpdateQuery [("full_name", "Dr. B"), ("is_available", "false")] "1" "2").1 =
        pre ++ "full_name" ++ post) := by
  have h := updateQuery_parameterization
    [("full_name", "Dr. B"), ("is_available", "false")] "1" "2" (by decide)
  exact ⟨h.1, h.2.2.1, h.2.2.2.1, h.2.2.2.2.1 "full_name" (by decide)⟩
